import Mathlib

/-!
A shallow embedding of the two source files of the `skrip-generate` repository:

* `src/services/geminiService.ts` — the response schema, the request that
  `generateScriptBundle` sends, and the parsing/validation of the response;
* `src/utils/zipUtils.ts` — `createAndDownloadZip`, and the `App` component it
  is concatenated with: `buildFileTree`, the chat history, and `handleSubmit`.

Modelling conventions: JavaScript strings are `String`; JS objects used as
dictionaries are insertion-ordered association lists; a thrown exception is
`none`/`Except.error`; the asynchronous API call of one submission is an
explicit `ApiOutcome` parameter; the browser's built-in `JSON.parse` is a
parameter `parse : String → Option JSValue` (`none` models a parse exception).
All definitions are computable so that concrete runs evaluate by `decide`/`rfl`.
-/

namespace SkripGen

/-- A project file as exchanged with the API: `{ name, content }`
(`GeneratedFile` in `types.ts`). -/
structure GeneratedFile where
  name : String
  content : String
  deriving DecidableEq

/-! ### JS string primitives

`String.prototype.trim` and `String.prototype.split('/')`, modelled directly
on the code points so that every use is kernel-computable.  (JS `trim` also
strips several exotic Unicode spaces; only the ASCII ones can matter in this
development.) -/

/-- The whitespace characters stripped by JS `trim` (ASCII fragment). -/
def jsWhitespace (c : Char) : Bool :=
  c = ' ' || c = '\t' || c = '\n' || c = '\r' || c = '\x0b' || c = '\x0c'

/-- JS `String.prototype.trim`. -/
def jsTrim (s : String) : String :=
  String.mk (((s.data.dropWhile jsWhitespace).reverse.dropWhile jsWhitespace).reverse)

/-- Worker for `jsSplitSlash`, on the code-point list.  Mirrors JS
`split('/')`: the empty string gives `[""]`, separators at the ends give
empty segments. -/
def splitSlashChars : List Char → List String
  | [] => [""]
  | c :: cs =>
    let r := splitSlashChars cs
    if c = '/' then "" :: r
    else
      match r with
      | [] => [String.mk [c]]
      | s :: rest => String.mk (c :: s.data) :: rest

/-- JS `file.name.split('/')`. -/
def jsSplitSlash (s : String) : List String :=
  splitSlashChars s.data

/-! ### `src/services/geminiService.ts` — response parsing -/

/-- A runtime value produced by `JSON.parse`. -/
inductive JSValue where
  | jnull
  | jbool (b : Bool)
  | jnum (n : Int)
  | jstr (s : String)
  | jarr (elems : List JSValue)
  | jobj (fields : List (String × JSValue))

/-- Property lookup on a parsed JS object; with duplicate keys `JSON.parse`
keeps the last occurrence, so the lookup is last-wins. -/
def jlookup : List (String × JSValue) → String → Option JSValue
  | [], _ => none
  | (k, v) :: rest, key =>
    match jlookup rest key with
    | some r => some r
    | none => if k = key then some v else none

/-- The access `parsed.files` followed by the check
`!parsed.files || !Array.isArray(parsed.files)` (geminiService.ts:101-104).
`none` covers every path on which the code throws inside the `try`: a missing
or non-array `files` property (the explicit `throw`), a falsy `files`, and the
`TypeError` raised by `null.files` — all of these are caught by the same
`catch` and surface as the invalid-format error. -/
def extractFiles : JSValue → Option (List JSValue)
  | .jobj fields =>
    match jlookup fields "files" with
    | some (.jarr xs) => some xs
    | _ => none
  | _ => none

/-- Error message thrown when the trimmed response text is empty
(geminiService.ts:97). -/
def emptyResponseMsg : String :=
  "API returned an empty response. Please try rephrasing your request."

/-- Error message rethrown by the `catch` block (geminiService.ts:108).  The
intermediate message "API did not return the expected file structure."
(line 103) is itself caught by that `catch` and never escapes. -/
def invalidFormatMsg : String :=
  "The API returned an invalid format. This might be due to a complex or unsupported request."

/-- The response-processing tail of `generateScriptBundle`
(geminiService.ts:95-109), as a function of the raw response text.  `parse`
stands for the browser's `JSON.parse`; `parse s = none` models a parse
exception. -/
def generateScriptBundleResult (parse : String → Option JSValue)
    (responseText : String) : Except String (List JSValue) :=
  let jsonString := jsTrim responseText
  if jsonString = "" then .error emptyResponseMsg
  else
    match parse jsonString with
    | none => .error invalidFormatMsg
    | some parsed =>
      match extractFiles parsed with
      | none => .error invalidFormatMsg
      | some files => .ok files

/-! ### `src/services/geminiService.ts` — the outbound request -/

/-- The `Type` tags used by the response schema. -/
inductive SchemaType where
  | object
  | array
  | string
  deriving DecidableEq

/-- A node of the response schema (geminiService.ts:8-31).  The
human-readable `description` strings of the source are inert and omitted. -/
inductive ApiSchema where
  | node (stype : SchemaType) (properties : List (String × ApiSchema))
      (required : List String) (items : Option ApiSchema)

/-- The declared `type` of a schema node. -/
def ApiSchema.stype : ApiSchema → SchemaType
  | .node t _ _ _ => t

/-- The `properties` of a schema node. -/
def ApiSchema.properties : ApiSchema → List (String × ApiSchema)
  | .node _ p _ _ => p

/-- The `required` list of a schema node. -/
def ApiSchema.required : ApiSchema → List String
  | .node _ _ r _ => r

/-- The `items` schema of an array schema node. -/
def ApiSchema.items : ApiSchema → Option ApiSchema
  | .node _ _ _ i => i

/-- Lookup of one property schema by name. -/
def ApiSchema.prop (s : ApiSchema) (k : String) : Option ApiSchema :=
  s.properties.lookup k

/-- Schema of one element of `files`: an object with required string
properties `name` and `content` (geminiService.ts:14-27). -/
def fileItemSchema : ApiSchema :=
  .node .object
    [("name", .node .string [] [] none), ("content", .node .string [] [] none)]
    ["name", "content"] none

/-- Schema of the `files` property: an array of `fileItemSchema`
(geminiService.ts:11-28). -/
def filesFieldSchema : ApiSchema :=
  .node .array [] [] (some fileItemSchema)

/-- The fixed response schema (geminiService.ts:8-31): an object with the
single required property `files`. -/
def schema : ApiSchema :=
  .node .object [("files", filesFieldSchema)] ["files"] none

/-- One entry of the `contents` array sent to the API. -/
inductive RequestPart where
  | textPart (text : String)
  | inlineImage (mimeType : String) (dataBase64 : String)

/-- The `config` object of the request (geminiService.ts:87-92).  The long
constant `systemInstruction` prose is inert and omitted. -/
structure ApiRequestConfig where
  responseMimeType : String
  responseSchema : ApiSchema
  temperature : ℚ

/-- One outbound `ai.models.generateContent` call. -/
structure ApiRequest where
  model : String
  parts : List RequestPart
  config : ApiRequestConfig

/-- Hex digit (lowercase) used by `JSON.stringify` control-character
escapes. -/
def hexDigitChar (n : Nat) : Char :=
  if n < 10 then Char.ofNat (48 + n) else Char.ofNat (87 + n)

/-- `JSON.stringify` escaping of one character. -/
def jsonEscapeChar (c : Char) : String :=
  if c = '"' then "\\\""
  else if c = '\\' then "\\\\"
  else if c = '\x08' then "\\b"
  else if c = '\t' then "\\t"
  else if c = '\n' then "\\n"
  else if c = '\x0c' then "\\f"
  else if c = '\r' then "\\r"
  else if c.toNat < 32 then
    "\\u00" ++ String.mk [hexDigitChar (c.toNat / 16), hexDigitChar (c.toNat % 16)]
  else String.mk [c]

/-- `JSON.stringify` of a string value. -/
def jsonQuote (s : String) : String :=
  "\"" ++ String.join (s.data.map jsonEscapeChar) ++ "\""

/-- `JSON.stringify` of one file object (key order `name`, `content`). -/
def fileJson (f : GeneratedFile) : String :=
  "\x7b\"name\":" ++ jsonQuote f.name ++ ",\"content\":" ++ jsonQuote f.content ++ "\x7d"

/-- `JSON.stringify` of the `existingFiles` array. -/
def filesJson (fs : List GeneratedFile) : String :=
  "[" ++ String.intercalate "," (fs.map fileJson) ++ "]"

/-- `JSON.stringify(inputPayload)` for `{ prompt, existingFiles }`
(geminiService.ts:66-69). -/
def inputPayloadJson (prompt : String) (existingFiles : List GeneratedFile) : String :=
  "\x7b\"prompt\":" ++ jsonQuote prompt ++ ",\"existingFiles\":" ++ filesJson existingFiles ++ "\x7d"

/-- The text part of `contents` (geminiService.ts:71-73). -/
def requestText (prompt : String) (existingFiles : List GeneratedFile) : String :=
  "Here is the current state and the user\x27s request. Your task is to return the new, complete state of the project files based on your core directives.\n\n"
    ++ inputPayloadJson prompt existingFiles

/-- The outbound calls made by one invocation of `generateScriptBundle`
(geminiService.ts:71-93): exactly one `generateContent` call, on the fixed
model, with the text part, the optional image part, and the fixed config. -/
def generateScriptBundleRequests (prompt : String) (existingFiles : List GeneratedFile)
    (imageBase64 : Option String) : List ApiRequest :=
  [{ model := "gemini-2.5-flash",
     parts := RequestPart.textPart (requestText prompt existingFiles) ::
       (match imageBase64 with
        | some d => [RequestPart.inlineImage "image/png" d]
        | none => []),
     config := { responseMimeType := "application/json", responseSchema := schema,
                 temperature := 3 / 10 } }]

/-! ### `src/utils/zipUtils.ts` — `createAndDownloadZip` -/

/-- Observable effects of one `createAndDownloadZip` run: the `zip.file`
calls made (in order), whether the download was triggered and under which
name, and whether the `catch` block logged an error. -/
structure ZipRun where
  entries : List (String × String)
  downloadName : Option String
  loggedError : Bool
  deriving DecidableEq

/-- `createAndDownloadZip` (zipUtils.ts:9-34).  `generateFails` says whether
`zip.generateAsync` (delegated to the JSZip library) throws; the `try/catch`
catches that failure, logs it, and lets the promise resolve — the return type
is `Except` precisely to show that no error escapes. -/
def createAndDownloadZip (generateFails : Bool) (files : List GeneratedFile)
    (zipName : String) : Except String ZipRun :=
  let entries := files.foldl (fun acc f => acc ++ [(f.name, f.content)]) []
  if generateFails then
    .ok { entries := entries, downloadName := none, loggedError := true }
  else
    .ok { entries := entries, downloadName := some zipName, loggedError := false }

/-! ### `App` — `buildFileTree`

`buildFileTree` (zipUtils.ts concatenation, `App` part) navigates with
`currentLevel = folderNode.children`, i.e. it uses the `children` *array* as
a dictionary: descendants are assigned as **named string properties on the
array object**, while the array's element list (what `children.map` iterates
during rendering) is never pushed to.  The embedding therefore keeps a folder's
element list (`childElems`) separate from its named properties (`childProps`).
When an intermediate path segment hits an existing *file* node,
`folderNode.children` is `undefined` and the next loop iteration throws a
`TypeError`; this is modelled by `none`.  (JS would enumerate integer-like
keys first; no claim involves such path segments and this is not modelled.) -/

/-- A node of the displayed file tree (`FileTreeNode`).  `childElems` are the
elements of the `children` array, `childProps` its named string properties. -/
inductive FTNode where
  | file (name : String) (path : String)
  | folder (name : String) (childElems : List FTNode) (childProps : List (String × FTNode))

/-- The display name of a node. -/
def FTNode.nodeName : FTNode → String
  | .file n _ => n
  | .folder n _ _ => n

/-- JS property assignment `level[k] = v` on an insertion-ordered object:
an existing key is updated in place, a new key is appended. -/
def setProp : List (String × FTNode) → String → FTNode → List (String × FTNode)
  | [], k, v => [(k, v)]
  | (k0, v0) :: rest, k, v =>
    if k0 = k then (k, v) :: rest else (k0, v0) :: setProp rest k v

/-- JS property read `level[k]` (`undefined` is `none`). -/
def getProp : List (String × FTNode) → String → Option FTNode
  | [], _ => none
  | (k0, v0) :: rest, k => if k0 = k then some v0 else getProp rest k

/-- The inner `parts.forEach` of `buildFileTree`: insert one file, given its
split path and full name, into one dictionary level.  `none` models the
`TypeError` thrown when navigation passes through an existing file node. -/
def insertParts : List (String × FTNode) → List String → String → Option (List (String × FTNode))
  | d, [], _ => some d
  | d, [part], path => some (setProp d part (.file part path))
  | d, part :: rest, path =>
    match getProp d part with
    | some (.folder n es ps) =>
      (insertParts ps rest path).map fun ps2 => setProp d part (.folder n es ps2)
    | some (.file _ _) => none
    | none =>
      (insertParts [] rest path).map fun ps2 => setProp d part (.folder part [] ps2)

/-- One `zip`-style insertion of a whole file (`files.forEach` body). -/
def insertFile (d : List (String × FTNode)) (f : GeneratedFile) :
    Option (List (String × FTNode)) :=
  insertParts d (jsSplitSlash f.name) f.name

/-- The `files.forEach` loop of `buildFileTree`, with exception propagation. -/
def buildRootAux : List (String × FTNode) → List GeneratedFile → Option (List (String × FTNode))
  | d, [] => some d
  | d, f :: fs =>
    match insertFile d f with
    | none => none
    | some d2 => buildRootAux d2 fs

/-- The `root` object after the `files.forEach` loop of `buildFileTree`. -/
def buildRoot (files : List GeneratedFile) : Option (List (String × FTNode)) :=
  buildRootAux [] files

/-- The comparator of `treeToArray` (zipUtils.ts concatenation): folders
before files, then by name; `localeCompare` is modelled as code-point order
(two entries of one level always have distinct names, being distinct keys). -/
def nodeBefore (a b : FTNode) : Bool :=
  match a, b with
  | .folder _ _ _, .file _ _ => true
  | .file _ _, .folder _ _ _ => false
  | _, _ => a.nodeName ≤ b.nodeName

/-- Sorted insertion implementing the `Array.prototype.sort` call. -/
def sortedInsert (x : FTNode) : List FTNode → List FTNode
  | [] => [x]
  | y :: ys => if nodeBefore y x then y :: sortedInsert x ys else x :: y :: ys

/-- `treeToArray` applied to `root`: `Object.values` then `sort` (the source
sorts only the top level). -/
def treeToArray (d : List (String × FTNode)) : List FTNode :=
  (d.map Prod.snd).foldr sortedInsert []

/-- `buildFileTree` (flat file list to display tree); `none` models the
`TypeError` described above. -/
def buildFileTree (files : List GeneratedFile) : Option (List FTNode) :=
  (buildRoot files).map treeToArray

/-! ### `App` — chat history and `handleSubmit` -/

/-- The role of a chat message (`type: 'user' | 'ai' | 'system'`). -/
inductive Role where
  | user
  | ai
  | system
  deriving DecidableEq

/-- One chat-history entry: role, display text, optional files snapshot. -/
structure Turn where
  type : Role
  content : String
  files : Option (List GeneratedFile)
  deriving DecidableEq

/-- The uploaded screenshot, as `handleSubmit` sees it: the file's name and
the base64 payload that is sent to the API. -/
structure UploadedImage where
  name : String
  base64 : String
  deriving DecidableEq

/-- The `App` component state touched by `handleSubmit`. -/
structure AppState where
  prompt : String
  language : String
  platform : String
  moduleSystem : String
  database : String
  image : Option UploadedImage
  chatHistory : List Turn
  isFirstRequest : Bool
  isLoading : Bool
  error : String

/-- `constructFullPrompt` (App part of zipUtils.ts concatenation). -/
def constructFullPrompt (s : AppState) : String :=
  if s.isFirstRequest then
    "**Initial Project Specifications:**\n- Language: " ++ s.language
      ++ "\n- Platform: " ++ s.platform ++ "\n"
      ++ (if s.language = "javascript" ∨ s.language = "typescript" then
            "- Module System: " ++ s.moduleSystem
          else "")
      ++ "\n- Database: " ++ s.database ++ "\n\n**User Request:**\n" ++ s.prompt
  else
    "**Follow-up Request:**\n" ++ s.prompt

/-- `[...chatHistory].reverse().find(m => m.files)?.files`: a message's
`files` is truthy exactly when present (any array, even empty, is truthy). -/
def latestFilesOf (history : List Turn) : Option (List GeneratedFile) :=
  (history.reverse.find? fun m => m.files.isSome).bind Turn.files

/-- The `currentFiles` computed at the top of `handleSubmit`
(`... ?? []`). -/
def currentFilesOf (history : List Turn) : List GeneratedFile :=
  (latestFilesOf history).getD []

/-- Claim C1's own description of `currentFiles`: the files of the most
recent *assistant* turn, and `[]` when no such turn exists.  Stated from the
claim's words, for comparison with `currentFilesOf`. -/
def latestAiFiles (history : List Turn) : List GeneratedFile :=
  ((history.reverse.find? fun m => decide (m.type = Role.ai)).bind Turn.files).getD []

/-- The last `files` snapshot of the history, described structurally (most
recent turn of any role carrying a snapshot); used by the amended C1. -/
def lastSnapshot : List Turn → Option (List GeneratedFile)
  | [] => none
  | t :: ts =>
    match lastSnapshot ts with
    | some fs => some fs
    | none => t.files

/-- The amended C1's "current file set": last snapshot of any role, `[]`
when no turn carries one. -/
def latestSnapshotFiles (h : List Turn) : List GeneratedFile :=
  (lastSnapshot h).getD []

/-- The user turn appended by `handleSubmit` (line 145): the prompt text,
and — only when an image is attached — a single placeholder file entry whose
content is the constant text, not the image data. -/
def userTurnOf (s : AppState) : Turn :=
  { type := .user, content := s.prompt,
    files := s.image.map fun img => [{ name := img.name, content := "User uploaded an image." }] }

/-- The arguments of the `generateScriptBundle` call started by one
submission. -/
structure ApiCall where
  prompt : String
  existingFiles : List GeneratedFile
  imageBase64 : Option String
  deriving DecidableEq

/-- How the awaited `generateScriptBundle` promise settles. -/
inductive ApiOutcome where
  | ok (files : List GeneratedFile)
  | err (message : String)

/-- `handleSubmit` (App part, lines 138-162), as one synchronous step: the
guard (`!prompt.trim() || isLoading`), the request construction, the user
turn, and the settling of the API call (`outcome`), including the `finally`
that clears the loading flag.  Returns the new state and the call that was
started, if any. -/
def handleSubmit (s : AppState) (outcome : ApiOutcome) : AppState × Option ApiCall :=
  if jsTrim s.prompt = "" ∨ s.isLoading = true then (s, none)
  else
    let call : ApiCall :=
      { prompt := constructFullPrompt s,
        existingFiles := currentFilesOf s.chatHistory,
        imageBase64 := s.image.map UploadedImage.base64 }
    let started : AppState :=
      { s with chatHistory := s.chatHistory ++ [userTurnOf s],
               isLoading := true, error := "", prompt := "", image := none }
    let settled : AppState :=
      match outcome with
      | .ok files =>
        { started with
            chatHistory := started.chatHistory
              ++ [{ type := .ai, content := "Project files are ready or have been updated.",
                    files := some files }],
            isFirstRequest := false }
      | .err msg =>
        { started with
            error := msg,
            chatHistory := started.chatHistory
              ++ [{ type := .system, content := "Error: " ++ msg, files := none }] }
    ({ settled with isLoading := false }, some call)

/-! ### Concrete runs used when settling the claims -/

/-- Initial state of a session whose first submission attaches a screenshot
`err.png` (base64 payload `"AAAA"`). -/
def C1stateA : AppState :=
  { prompt := "make a bot", language := "javascript", platform := "web", moduleSystem := "esm",
    database := "none", image := some { name := "err.png", base64 := "AAAA" },
    chatHistory := [], isFirstRequest := true, isLoading := false, error := "" }

/-- State after that first submission fails (`generateScriptBundle` rejects
with "boom") and the user types a second prompt. -/
def C1stateB : AppState :=
  { (handleSubmit C1stateA (ApiOutcome.err "boom")).1 with prompt := "retry" }

/-- A fresh session about to submit a prompt with a screenshot attached. -/
def C5state : AppState :=
  { prompt := "fix this error", language := "javascript", platform := "web",
    moduleSystem := "esm", database := "none",
    image := some { name := "err.png", base64 := "AAAA" },
    chatHistory := [], isFirstRequest := true, isLoading := false, error := "" }

/-- A state with a request currently in flight. -/
def C7state : AppState := { C5state with isLoading := true }

/-! ## Helper lemmas -/

/-- The `forEach` of `createAndDownloadZip` appends exactly one entry per
input file, in order. -/
theorem foldl_zip_entries (files : List GeneratedFile) : ∀ acc : List (String × String),
    files.foldl (fun acc f => acc ++ [(f.name, f.content)]) acc
      = acc ++ files.map fun f => (f.name, f.content) := by
  induction files with
  | nil => intro acc; simp
  | cons f fs ih => intro acc; simp [List.foldl_cons, ih]

/-- Both `createAndDownloadZip` branches resolve, with exactly the mapped
entries. -/
theorem zip_run_exists (genFails : Bool) (files : List GeneratedFile) (zipName : String) :
    ∃ run, createAndDownloadZip genFails files zipName = Except.ok run
      ∧ run.entries = files.map fun f => (f.name, f.content) := by
  unfold createAndDownloadZip
  cases genFails <;> exact ⟨_, rfl, by simpa using foldl_zip_entries files []⟩

/-- Overwriting the same key twice keeps only the second assignment. -/
theorem setProp_setProp (d : List (String × FTNode)) (k : String) (v w : FTNode) :
    setProp (setProp d k v) k w = setProp d k w := by
  induction d with
  | nil => simp [setProp]
  | cons p rest ih =>
    obtain ⟨k0, v0⟩ := p
    by_cases h : k0 = k
    · simp [setProp, h]
    · simp [setProp, h, ih]

/-- Reading back a just-assigned key. -/
theorem getProp_setProp (d : List (String × FTNode)) (k : String) (v : FTNode) :
    getProp (setProp d k v) k = some v := by
  induction d with
  | nil => simp [setProp, getProp]
  | cons p rest ih =>
    obtain ⟨k0, v0⟩ := p
    by_cases h : k0 = k
    · simp [setProp, getProp, h]
    · simp [setProp, getProp, h, ih]

/-- Re-inserting the same path into the result of inserting it changes
nothing (the later file overwrites the node the earlier one made). -/
theorem insertParts_idem : ∀ (parts : List String) (d d2 : List (String × FTNode)) (path : String),
    insertParts d parts path = some d2 → insertParts d2 parts path = some d2 := by
  intro parts
  induction parts with
  | nil =>
    intro d d2 path h
    simp only [insertParts, Option.some.injEq] at h
    subst h
    rfl
  | cons p rest ih =>
    intro d d2 path h
    cases rest with
    | nil =>
      simp only [insertParts, Option.some.injEq] at h
      subst h
      simp [insertParts, setProp_setProp]
    | cons q rest2 =>
      simp only [insertParts] at h ⊢
      cases hg : getProp d p with
      | none =>
        rw [hg] at h
        simp only [Option.map_eq_some'] at h
        obtain ⟨ps2, hps2, hd2⟩ := h
        subst hd2
        rw [getProp_setProp]
        simp only [ih _ _ _ hps2, Option.map_some', setProp_setProp]
      | some node =>
        cases node with
        | file n pth =>
          rw [hg] at h
          simp at h
        | folder n es ps =>
          rw [hg] at h
          simp only [Option.map_eq_some'] at h
          obtain ⟨ps2, hps2, hd2⟩ := h
          subst hd2
          rw [getProp_setProp]
          simp only [ih _ _ _ hps2, Option.map_some', setProp_setProp]

/-- Splitting the `files.forEach` loop of `buildFileTree` at a list split. -/
theorem buildRootAux_append (l1 l2 : List GeneratedFile) : ∀ d,
    buildRootAux d (l1 ++ l2)
      = match buildRootAux d l1 with
        | none => none
        | some d2 => buildRootAux d2 l2 := by
  induction l1 with
  | nil => intro d; rfl
  | cons f fs ih =>
    intro d
    simp only [List.cons_append, buildRootAux]
    cases insertFile d f with
    | none => rfl
    | some d2 => exact ih d2

/-- Two adjacent files with the same name: the later insertion overwrites
whatever the earlier one wrote, so the earlier file is irrelevant. -/
theorem buildRoot_dup_overwrite (pre post : List GeneratedFile) (f g : GeneratedFile)
    (hname : f.name = g.name) :
    buildRoot (pre ++ f :: g :: post) = buildRoot (pre ++ g :: post) := by
  unfold buildRoot
  rw [buildRootAux_append, buildRootAux_append]
  cases buildRootAux [] pre with
  | none => rfl
  | some d =>
    simp only [buildRootAux]
    have hfg : insertFile d f = insertFile d g := by
      unfold insertFile
      rw [hname]
    rw [hfg]
    cases h2 : insertFile d g with
    | none => rfl
    | some d2 =>
      have h3 : insertFile d2 g = some d2 := by
        unfold insertFile at h2 ⊢
        exact insertParts_idem _ _ _ _ h2
      simp only [buildRootAux, h3]

/-- `buildFileTree` version of `buildRoot_dup_overwrite`. -/
theorem buildFileTree_dup_overwrite (pre post : List GeneratedFile) (f g : GeneratedFile)
    (hname : f.name = g.name) :
    buildFileTree (pre ++ f :: g :: post) = buildFileTree (pre ++ g :: post) := by
  unfold buildFileTree
  rw [buildRoot_dup_overwrite pre post f g hname]

/-- The reversed-`find` of `handleSubmit` returns the files of the most
recent turn carrying a snapshot. -/
theorem lastSnapshot_eq (h : List Turn) :
    (h.reverse.find? fun m => m.files.isSome).bind Turn.files = lastSnapshot h := by
  induction h with
  | nil => rfl
  | cons t ts ih =>
    simp only [List.reverse_cons, lastSnapshot]
    rw [List.find?_append]
    cases hf : ts.reverse.find? (fun m => m.files.isSome) with
    | some m =>
      have hp := List.find?_some hf
      rw [hf] at ih
      simp only [Option.some_bind] at ih
      cases hm : m.files with
      | none =>
        rw [hm] at hp
        simp at hp
      | some fs =>
        rw [hm] at ih
        rw [← ih]
        simp [Option.or, Option.some_bind, hm]
    | none =>
      rw [hf] at ih
      simp only [Option.none_bind] at ih
      rw [← ih]
      cases ht : t.files with
      | none => simp [Option.or, List.find?, ht]
      | some fs => simp [Option.or, List.find?, ht]

/-- `currentFiles` as computed by `handleSubmit` equals the last snapshot of
any role (the amended C1 reading). -/
theorem currentFiles_spec (h : List Turn) : currentFilesOf h = latestSnapshotFiles h := by
  unfold currentFilesOf latestFilesOf latestSnapshotFiles
  rw [lastSnapshot_eq]

/-- When the trimmed response parses to an object with an array `files`
property, `generateScriptBundle` returns that array as-is. -/
theorem genResult_ok (parse : String → Option JSValue) (t : String) (v : JSValue)
    (xs : List JSValue) (h1 : ¬ jsTrim t = "") (h2 : parse (jsTrim t) = some v)
    (h3 : extractFiles v = some xs) :
    generateScriptBundleResult parse t = Except.ok xs := by
  unfold generateScriptBundleResult
  simp [h1, h2, h3]

/-! ## Claim theorems -/

/-- Claim C1, counterexample.  The claim says the re-submitted file set is
the files of the latest *assistant* turn, and `[]` when no assistant turn
exists.  In the concrete run (first submission with a screenshot fails, then
the user submits again) the history contains no assistant turn, yet the
second submission re-submits the user turn's image-placeholder snapshot, not
`[]`: `find(m => m.files)` matches turns of any role. -/
theorem C1_counterexample :
    ((handleSubmit C1stateB (ApiOutcome.ok [])).2.map ApiCall.existingFiles)
        = some [{ name := "err.png", content := "User uploaded an image." }]
  ∧ latestAiFiles C1stateB.chatHistory = []
  ∧ ((handleSubmit C1stateB (ApiOutcome.ok [])).2.map ApiCall.existingFiles)
        ≠ some (latestAiFiles C1stateB.chatHistory) := by
  refine ⟨by decide, by decide, by decide⟩

/-- Claim C1, amended: the file set re-submitted with every submission is
the files snapshot of the most recent turn of *any* role that carries one
(assistant turns and user image-placeholder turns alike), and is the empty
list when no turn carries a snapshot. -/
theorem C1_amended (s : AppState) (o : ApiOutcome)
    (h1 : ¬ jsTrim s.prompt = "") (h2 : s.isLoading = false) :
    ∃ c, (handleSubmit s o).2 = some c
      ∧ c.existingFiles = latestSnapshotFiles s.chatHistory := by
  have hcond : ¬ (jsTrim s.prompt = "" ∨ s.isLoading = true) := by simp [h1, h2]
  refine ⟨{ prompt := constructFullPrompt s, existingFiles := currentFilesOf s.chatHistory,
            imageBase64 := s.image.map UploadedImage.base64 }, ?_,
          currentFiles_spec s.chatHistory⟩
  unfold handleSubmit
  rw [if_neg hcond]

/-- Witness for the amended C1 at the concrete failed-first-submission run. -/
theorem C1_amended_witness :
    ∃ c, (handleSubmit C1stateB (ApiOutcome.ok [])).2 = some c
      ∧ c.existingFiles = latestSnapshotFiles C1stateB.chatHistory :=
  C1_amended C1stateB (ApiOutcome.ok []) (by decide) (by decide)

/-- Claim C2, evaluation of the code at the failing input
`[{ name := "src/index.js", content := "x" }]`: the resulting tree is a
folder `src` whose `children` *array* has no elements (`childElems = []`) —
the nested file node exists only as a named string property on that array
(`childProps`), which the rendering (`children.map`) never sees.  The claim
(and the `FileTreeNode` type with its `children: FileTreeNode[]` consumer)
expects the file node to be a child element of the folder. -/
theorem C2_code_evaluation :
    buildFileTree [{ name := "src/index.js", content := "x" }]
      = some [FTNode.folder "src" [] [("index.js", FTNode.file "index.js" "src/index.js")]] := by
  rfl

/-- Claim C3: `generateScriptBundle` throws a user-visible error exactly when
the trimmed response text is empty, or does not parse as JSON, or the parsed
value lacks an array-valued `files` property; on every other response it
returns the parsed `files` array; and it makes exactly one API call (no
retry). -/
theorem C3_error_surface (parse : String → Option JSValue) (t : String) :
    (jsTrim t = "" → generateScriptBundleResult parse t = Except.error emptyResponseMsg)
  ∧ (¬ jsTrim t = "" → parse (jsTrim t) = none →
        generateScriptBundleResult parse t = Except.error invalidFormatMsg)
  ∧ (∀ v, ¬ jsTrim t = "" → parse (jsTrim t) = some v → extractFiles v = none →
        generateScriptBundleResult parse t = Except.error invalidFormatMsg)
  ∧ (∀ v xs, ¬ jsTrim t = "" → parse (jsTrim t) = some v → extractFiles v = some xs →
        generateScriptBundleResult parse t = Except.ok xs)
  ∧ (∀ (p : String) (fs : List GeneratedFile) (img : Option String),
        (generateScriptBundleRequests p fs img).length = 1) := by
  refine ⟨?_, ?_, ?_, ?_, ?_⟩
  · intro h
    unfold generateScriptBundleResult
    simp [h]
  · intro h1 h2
    unfold generateScriptBundleResult
    simp [h1, h2]
  · intro v h1 h2 h3
    unfold generateScriptBundleResult
    simp [h1, h2, h3]
  · intro v xs h1 h2 h3
    exact genResult_ok parse t v xs h1 h2 h3
  · intro p fs img
    cases img <;> rfl

/-- Witness for C3: an unparseable non-empty response surfaces the
invalid-format error. -/
theorem C3_witness :
    generateScriptBundleResult (fun _ => none) "x" = Except.error invalidFormatMsg :=
  (C3_error_surface (fun _ => none) "x").2.1 (by decide) rfl

/-- Claim C4: for any file list, the produced archive receives exactly one
`zip.file(name, content)` entry per input file, in input order, and no other
entry. -/
theorem C4_zip_exact (genFails : Bool) (files : List GeneratedFile) (zipName : String) :
    ∃ run, createAndDownloadZip genFails files zipName = Except.ok run
      ∧ run.entries = files.map fun f => (f.name, f.content) :=
  zip_run_exists genFails files zipName

/-- Claim C5, counterexample.  The claim says every turn with a files
snapshot carries the full file set produced at that turn.  In the concrete
run the appended user turn carries a snapshot consisting of one placeholder
entry whose content is the constant text `"User uploaded an image."` — not
the uploaded file's data (`"AAAA"`) and not the file set returned by the API
at that submission. -/
theorem C5_counterexample :
    (handleSubmit C5state (ApiOutcome.ok [{ name := "index.js", content := "y" }])).1.chatHistory.head?
        = some { type := Role.user, content := "fix this error",
                 files := some [{ name := "err.png", content := "User uploaded an image." }] }
  ∧ C5state.image = some { name := "err.png", base64 := "AAAA" }
  ∧ ([{ name := "err.png", content := "User uploaded an image." }] : List GeneratedFile)
        ≠ [{ name := "err.png", content := "AAAA" }]
  ∧ ([{ name := "err.png", content := "User uploaded an image." }] : List GeneratedFile)
        ≠ [{ name := "index.js", content := "y" }] := by
  refine ⟨by decide, by decide, by decide, by decide⟩

/-- Claim C5, amended: an assistant turn's snapshot is the complete list the
API returned for that request, and the error turn carries none; a user turn
carries a snapshot exactly when an image is attached, and that snapshot is
the single placeholder entry (image name, constant text), not a file set
produced at the turn. -/
theorem C5_amended (s : AppState) (files : List GeneratedFile) (msg : String)
    (h1 : ¬ jsTrim s.prompt = "") (h2 : s.isLoading = false) :
    (handleSubmit s (ApiOutcome.ok files)).1.chatHistory
        = s.chatHistory ++ [userTurnOf s,
            { type := Role.ai, content := "Project files are ready or have been updated.",
              files := some files }]
  ∧ (handleSubmit s (ApiOutcome.err msg)).1.chatHistory
        = s.chatHistory ++ [userTurnOf s,
            { type := Role.system, content := "Error: " ++ msg, files := none }]
  ∧ (userTurnOf s).files
        = s.image.map fun img => [{ name := img.name, content := "User uploaded an image." }] := by
  have hcond : ¬ (jsTrim s.prompt = "" ∨ s.isLoading = true) := by simp [h1, h2]
  refine ⟨?_, ?_, rfl⟩
  · unfold handleSubmit
    rw [if_neg hcond]
    simp
  · unfold handleSubmit
    rw [if_neg hcond]
    simp

/-- Witness for the amended C5 at the concrete screenshot submission. -/
theorem C5_amended_witness :
    (handleSubmit C5state (ApiOutcome.ok [])).1.chatHistory
        = C5state.chatHistory ++ [userTurnOf C5state,
            { type := Role.ai, content := "Project files are ready or have been updated.",
              files := some [] }]
  ∧ (handleSubmit C5state (ApiOutcome.err "boom")).1.chatHistory
        = C5state.chatHistory ++ [userTurnOf C5state,
            { type := Role.system, content := "Error: " ++ "boom", files := none }]
  ∧ (userTurnOf C5state).files
        = C5state.image.map fun img => [{ name := img.name, content := "User uploaded an image." }] :=
  C5_amended C5state [] "boom" (by decide) rfl

/-- Claim C6: every invocation of `generateScriptBundle` makes exactly one
outbound call, and that call's config carries the fixed response schema: an
object with required `files`, an array whose items are objects with required
string properties `name` and `content`. -/
theorem C6_single_call_fixed_schema (p : String) (fs : List GeneratedFile) (img : Option String) :
    (generateScriptBundleRequests p fs img).length = 1
  ∧ ((generateScriptBundleRequests p fs img).head?.map fun r => r.model)
        = some "gemini-2.5-flash"
  ∧ ((generateScriptBundleRequests p fs img).head?.map fun r => r.config.responseMimeType)
        = some "application/json"
  ∧ ((generateScriptBundleRequests p fs img).head?.map fun r => r.config.responseSchema)
        = some schema
  ∧ schema.stype = SchemaType.object
  ∧ schema.required = ["files"]
  ∧ schema.prop "files" = some filesFieldSchema
  ∧ filesFieldSchema.stype = SchemaType.array
  ∧ filesFieldSchema.items = some fileItemSchema
  ∧ fileItemSchema.stype = SchemaType.object
  ∧ fileItemSchema.required = ["name", "content"]
  ∧ ((fileItemSchema.prop "name").map ApiSchema.stype) = some SchemaType.string
  ∧ ((fileItemSchema.prop "content").map ApiSchema.stype) = some SchemaType.string := by
  cases img <;>
    exact ⟨rfl, rfl, rfl, rfl, rfl, rfl, rfl, rfl, rfl, rfl, rfl, rfl, rfl⟩

/-- Claim C7: with a request in flight (`isLoading = true`) `handleSubmit`
leaves the state unchanged and starts no API call; and whenever a call is
started, the loading flag is cleared once it settles, on success and on
failure alike. -/
theorem C7_loading_guard (s : AppState) (o : ApiOutcome) :
    (s.isLoading = true → handleSubmit s o = (s, none))
  ∧ (∀ c, (handleSubmit s o).2 = some c → (handleSubmit s o).1.isLoading = false) := by
  constructor
  · intro h
    unfold handleSubmit
    rw [if_pos (Or.inr h)]
  · intro c hc
    by_cases hcond : jsTrim s.prompt = "" ∨ s.isLoading = true
    · unfold handleSubmit at hc
      rw [if_pos hcond] at hc
      simp at hc
    · unfold handleSubmit
      rw [if_neg hcond]

/-- Witness for C7: submitting while loading is a no-op. -/
theorem C7_witness : handleSubmit C7state (ApiOutcome.ok []) = (C7state, none) :=
  (C7_loading_guard C7state (ApiOutcome.ok [])).1 rfl

/-- Claim C8, counterexample.  The list `["a", "a", "a/b"]` contains two
files with the same name, yet `buildFileTree` does not accept it: inserting
`"a/b"` navigates through the existing *file* node `"a"`, whose `children`
is `undefined`, and the loop throws a `TypeError` (modelled by `none`). -/
theorem C8_counterexample :
    (([{ name := "a", content := "1" }, { name := "a", content := "2" },
        { name := "a/b", content := "3" }] : List GeneratedFile).map GeneratedFile.name).count "a"
        = 2
  ∧ buildFileTree [{ name := "a", content := "1" }, { name := "a", content := "2" },
        { name := "a/b", content := "3" }] = none := by
  refine ⟨by decide, rfl⟩

/-- Claim C8, amended: no operation deduplicates or rejects duplicate names
as such — `generateScriptBundle` returns any parsed `files` array unchanged,
`createAndDownloadZip` adds one entry per input file in order and never
errors, and in `buildFileTree` a later file with the same name overwrites
the earlier file's node at that path (the earlier file is irrelevant);
however `buildFileTree` does throw a `TypeError` (duplicates or not)
whenever a file's path traverses a node an earlier file created as a file. -/
theorem C8_amended :
    (∀ (parse : String → Option JSValue) (t : String) (v : JSValue) (xs : List JSValue),
        ¬ jsTrim t = "" → parse (jsTrim t) = some v → extractFiles v = some xs →
        generateScriptBundleResult parse t = Except.ok xs)
  ∧ (∀ (genFails : Bool) (files : List GeneratedFile) (zipName : String),
        ∃ run, createAndDownloadZip genFails files zipName = Except.ok run
          ∧ run.entries = files.map fun f => (f.name, f.content))
  ∧ (∀ (pre post : List GeneratedFile) (f g : GeneratedFile), f.name = g.name →
        buildFileTree (pre ++ f :: g :: post) = buildFileTree (pre ++ g :: post)) :=
  ⟨fun parse t v xs h1 h2 h3 => genResult_ok parse t v xs h1 h2 h3,
   fun genFails files zipName => zip_run_exists genFails files zipName,
   fun pre post f g hname => buildFileTree_dup_overwrite pre post f g hname⟩

/-- Witness for the amended C8: two files both named `"a"` — the tree is the
one built from the later file alone. -/
theorem C8_amended_witness :
    buildFileTree [({ name := "a", content := "1" } : GeneratedFile),
        { name := "a", content := "2" }]
      = buildFileTree [({ name := "a", content := "2" } : GeneratedFile)] :=
  C8_amended.2.2 [] [] { name := "a", content := "1" } { name := "a", content := "2" } rfl

/-- Claim C9: `createAndDownloadZip` never rejects — also when archive
generation throws, the promise resolves; the failure is only logged
(`loggedError`) and the download is silently skipped, so the caller cannot
observe it. -/
theorem C9_never_rejects (genFails : Bool) (files : List GeneratedFile) (zipName : String) :
    ∃ run, createAndDownloadZip genFails files zipName = Except.ok run
      ∧ run.loggedError = genFails
      ∧ run.downloadName = (if genFails then none else some zipName) := by
  unfold createAndDownloadZip
  cases genFails <;> exact ⟨_, rfl, rfl, rfl⟩

/-- Claim C10: `generateScriptBundle` validates only that the parsed value
has an array-valued `files` property and returns that array unchanged —
`xs` ranges over arbitrary JSON element lists, so malformed entries
(non-objects, objects missing `name`/`content`) are returned as-is. -/
theorem C10_no_entry_validation (parse : String → Option JSValue) (t : String)
    (v : JSValue) (xs : List JSValue) (h1 : ¬ jsTrim t = "")
    (h2 : parse (jsTrim t) = some v) (h3 : extractFiles v = some xs) :
    generateScriptBundleResult parse t = Except.ok xs :=
  genResult_ok parse t v xs h1 h2 h3

/-- Witness for C10: a `files` array holding `null` and a bare string is
returned verbatim. -/
theorem C10_witness :
    generateScriptBundleResult
        (fun _ => some (JSValue.jobj
          [("files", JSValue.jarr [JSValue.jnull, JSValue.jstr "oops"])]))
        "x"
      = Except.ok [JSValue.jnull, JSValue.jstr "oops"] :=
  C10_no_entry_validation _ "x" _ _ (by decide) rfl rfl

end SkripGen
